import Mathlib

/-!
Shallow embedding of the to-do application (Express + GraphQL over MongoDB):
the task and user stores, the GraphQL resolvers (`src/graphql/resolvers/`),
the web route handlers (`src/routes/web.ts`), the JWT authentication
middleware (`src/middleware/auth.ts`) and the CSRF dispatch middleware
(`src/index.ts`). MongoDB document ids and timestamps are modelled as `Nat`;
a collection is a `List` of documents; a Mongo query chain
`find(filter).sort(createdAt: -1).skip(s).limit(k)` is modelled as
filter, then a deterministic sort newest-first, then `drop`/`take`
(MongoDB applies sort before skip/limit regardless of chaining order).
-/

namespace TodoApp

deriving instance DecidableEq for Except

/-- String trimming (`String.prototype.trim` / the `express-validator`
`trim()` sanitizer): strip leading and trailing whitespace. Implemented
structurally over the character list so that concrete instances reduce. -/
def strTrim (s : String) : String :=
  ⟨((s.data.dropWhile Char.isWhitespace).reverse.dropWhile
      Char.isWhitespace).reverse⟩

/-- Prefix test (`String.prototype.startsWith`), structurally over the
character lists. -/
def strStarts (s pre : String) : Bool := pre.data.isPrefixOf s.data

/-- A document of the `todos` collection (`src/models/Todo.ts`, appended in
`src/index.ts`): `text` required, `completed` defaults to `false`,
`createdAt` defaults to now, `userId` a required owner reference. -/
structure Todo where
  id : Nat
  text : String
  completed : Bool
  createdAt : Nat
  userId : Nat
deriving DecidableEq

/-- A document of the `users` collection. The stored password is the one-way
hash produced by the pre-save hook, never the clear text. -/
structure User where
  id : Nat
  username : String
  passwordHash : String
deriving DecidableEq

/-- Modelled from the spec: the User model file (`src/models/User.ts`) is not
among the sources; spec section 3 says the password is stored as a one-way
hash derived by a pre-save hook (bcrypt). The hash is modelled as an
injective tagging function; one-wayness is irrelevant to the claims. -/
def hashPw (password : String) : String := "bcrypt$" ++ password

/-- Modelled from the spec: `user.comparePassword(p)` of the missing User
model checks the supplied password against the stored hash. -/
def comparePassword (u : User) (password : String) : Bool :=
  hashPw password == u.passwordHash

/-- The GraphQL per-request context built in `src/index.ts`
(`context: ({ req }) => ({ userId: req.userId })`). -/
structure AuthContext where
  userId : Option Nat
deriving DecidableEq

/-- The `TodoPayload` shape returned by the todo resolvers: ids and
timestamps are serialised to strings (`toString` / `toISOString`, modelled
as decimal rendering). -/
structure TodoPayload where
  id : String
  text : String
  completed : Bool
  createdAt : String
deriving DecidableEq

def toPayload (t : Todo) : TodoPayload :=
  { id := toString t.id, text := t.text, completed := t.completed,
    createdAt := toString t.createdAt }

/-- The ordering realising `sort(createdAt: -1)`: newest first. -/
def newerEq (a b : Todo) : Prop := b.createdAt ≤ a.createdAt

instance : DecidableRel newerEq := fun a b => Nat.decLe b.createdAt a.createdAt

instance : IsTotal Todo newerEq := ⟨fun a b => Nat.le_total b.createdAt a.createdAt⟩

instance : IsTrans Todo newerEq := ⟨fun _ _ _ hab hbc => Nat.le_trans hbc hab⟩

/-- `Todo.find(userId: uid)` followed by `sort(createdAt: -1)`: the user's
todos, newest first (a deterministic refinement of Mongo's sort). -/
def userTodos (db : List Todo) (uid : Nat) : List Todo :=
  List.insertionSort newerEq (db.filter (fun t => t.userId == uid))

/-- `findOne(_id: i, userId: uid)`: first owned document with that id. -/
def findOwned (db : List Todo) (uid i : Nat) : Option Todo :=
  db.find? (fun t => t.id == i && t.userId == uid)

/-- The `todos` query resolver (`todoResolvers.ts`): requires a context
user, defaults skip to 0 and take to 10, then filter-sort-skip-limit. -/
def todosResolver (db : List Todo) (ctx : AuthContext)
    (skip take : Option Nat) : Except String (List TodoPayload) :=
  match ctx.userId with
  | none => .error "Authentication required"
  | some uid =>
    let s := skip.getD 0
    let k := take.getD 10
    .ok ((((userTodos db uid).drop s).take k).map toPayload)

/-- The `addTodo` mutation resolver (`todoResolvers.ts`): requires a context
user and saves `new Todo(text, userId)` with no trimming; the Mongo schema
marks `text` required, which for a string rejects exactly the empty string
(whitespace-only text passes). `freshId` and `now` stand for the
store-assigned id and the `createdAt` default. -/
def addTodoResolver (db : List Todo) (ctx : AuthContext) (text : String)
    (freshId now : Nat) : Except String (List Todo × TodoPayload) :=
  match ctx.userId with
  | none => .error "Authentication required"
  | some uid =>
    if text = "" then .error "Todo validation failed: text is required"
    else
      let t : Todo := ⟨freshId, text, false, now, uid⟩
      .ok (db ++ [t], toPayload t)

/-- The `toggleTodo` mutation resolver (`todoResolvers.ts`): requires a
context user, looks the todo up filtered by owner, errors `Todo not found`
on a miss, otherwise flips `completed` and saves (an update of the document
with that `_id`). -/
def toggleTodoResolver (db : List Todo) (ctx : AuthContext) (i : Nat) :
    Except String (List Todo × TodoPayload) :=
  match ctx.userId with
  | none => .error "Authentication required"
  | some uid =>
    match findOwned db uid i with
    | none => .error "Todo not found"
    | some t =>
      let t2 : Todo := { t with completed := !t.completed }
      .ok (db.map (fun u => if u.id == t.id then t2 else u), toPayload t2)

/-- The `deleteTodo` mutation resolver (`todoResolvers.ts`): requires a
context user, `deleteOne(_id, userId)` (removes the first owned match),
errors `Todo not found` when `deletedCount` is 0, else returns `true`. -/
def deleteTodoResolver (db : List Todo) (ctx : AuthContext) (i : Nat) :
    Except String (List Todo × Bool) :=
  match ctx.userId with
  | none => .error "Authentication required"
  | some uid =>
    if db.any (fun t => t.id == i && t.userId == uid) then
      .ok (db.eraseP (fun t => t.id == i && t.userId == uid), true)
    else .error "Todo not found"

/-- Modelled from the spec: saving a `new User` through the missing
`src/models/User.ts` model. Spec section 3 gives the username invariant
(unique at write time is checked by callers; non-empty is a schema
requirement), and the pre-save hook hashes the password; no constraint on
the password itself. -/
def userSave (users : List User) (freshId : Nat)
    (username password : String) : Except String (List User × User) :=
  if username = "" then .error "User validation failed: username is required"
  else
    let u : User := ⟨freshId, username, hashPw password⟩
    .ok (users ++ [u], u)

/-- The `register` mutation resolver (`userResolvers.ts`): duplicate check
then save. The GraphQL layer hands every resolver the request context; this
resolver ignores it (it performs no authentication check). -/
def registerResolver (_ctx : AuthContext) (users : List User) (freshId : Nat)
    (username password : String) :
    Except String (List User × (String × String)) :=
  if users.any (fun u => u.username == username) then
    .error "Username already exists"
  else
    match userSave users freshId username password with
    | .error e => .error e
    | .ok (us, u) => .ok (us, (toString u.id, u.username))

/-- Payload of a signed JWT: the embedded user id (the payload of a foreign
token need not carry one) and the expiry instant. -/
structure TokenPayload where
  userId : Option Nat
  exp : Nat
deriving DecidableEq

/-- A bearer token as the verifier sees it: either not a JWT at all, or a
payload signed under some key. -/
inductive Token where
  | malformed (raw : String)
  | signed (payload : TokenPayload) (key : String)
deriving DecidableEq

/-- Modelled from the spec: `jwt.sign(payload, secret, expiresIn)`
(section 4.1, `issue`). -/
def jwtSign (payload : TokenPayload) (secret : String) : Token :=
  .signed payload secret

/-- Modelled from the spec: `jwt.verify(token, secret)` (section 4.1,
`verify`): checks signature and expiry and returns an explicit invalid
result (an `Except` error, standing for the thrown-and-caught library
error) on any malformed, expired, or mis-signed input. -/
def jwtVerify (secret : String) (now : Nat) : Token → Except String TokenPayload
  | .malformed _ => .error "jwt malformed"
  | .signed p k =>
    if k = secret then
      if now < p.exp then .ok p else .error "jwt expired"
    else .error "invalid signature"

/-- Milliseconds in the 7-day expiry of API-issued tokens. -/
def sevenDays : Nat := 7 * 24 * 60 * 60 * 1000

/-- Milliseconds in the 2-hour expiry of web session cookies. -/
def twoHours : Nat := 2 * 60 * 60 * 1000

/-- The `login` mutation resolver (`userResolvers.ts`): errors
`User not found` when the username matches no user, `Invalid password` when
the hash comparison fails, else signs a 7-day token. Like `register`, it
receives the request context and ignores it. -/
def loginResolver (_ctx : AuthContext) (users : List User) (secret : String)
    (now : Nat) (username password : String) : Except String Token :=
  match users.find? (fun u => u.username == username) with
  | none => .error "User not found"
  | some u =>
    if comparePassword u password then
      .ok (jwtSign ⟨some u.id, now + sevenDays⟩ secret)
    else .error "Invalid password"

/-- A response of the web controller layer (`src/routes/web.ts`): a redirect
or a rendered view with an HTTP status and `express-validator`-style
`(param, msg)` error entries. -/
inductive WebResp where
  | redirect (path : String)
  | render (view : String) (status : Nat) (errors : List (String × String))
deriving DecidableEq

/-- Modelled from the library semantics of `validator.isStrongPassword` with
the options of `POST /register`: at least 8 characters with at least one
lowercase, one uppercase, one digit and one symbol (non-alphanumeric). -/
def isStrongPw (s : String) : Bool :=
  decide (8 ≤ s.data.length) && s.data.any Char.isLower &&
    s.data.any Char.isUpper && s.data.any Char.isDigit &&
    s.data.any (fun c => !c.isAlphanum)

/-- The `POST /register` handler (`web.ts`): field validators (username
trimmed then length at least 3; strong password; confirmation equal), then
duplicate-username check, then save; redirects to `/login` on success.
Returns the updated user store and the response. -/
def webRegister (users : List User) (freshId : Nat)
    (username password confirm : String) : List User × WebResp :=
  let uname := strTrim username
  let errs :=
    (if uname.data.length < 3 then
      [("username", "Username must be at least 3 characters")] else []) ++
    (if !isStrongPw password then
      [("password",
        "Password must be at least 8 chars, include uppercase, lowercase, number & symbol")]
      else []) ++
    (if confirm ≠ password then
      [("confirmPassword", "Passwords do not match")] else [])
  if errs ≠ [] then (users, .render "register" 400 errs)
  else if users.any (fun u => u.username == uname) then
    (users, .render "register" 400 [("username", "Username already taken")])
  else
    match userSave users freshId uname password with
    | .ok (us, _) => (us, .redirect "/login")
    | .error e => (users, .render "error" 500 [("username", e)])

/-- The `POST /login` handler (`web.ts`): `username` is trimmed by the
validator sanitizer and must be non-empty, `password` must be non-empty;
then `findOne(username)` and `comparePassword`; a single branch
`if (!user || !valid)` renders one constant message for both failure
halves; on success a 2-hour cookie is set (not modelled here) and the
client is redirected to `/todos`. -/
def webLogin (users : List User) (username password : String) : WebResp :=
  let uname := strTrim username
  let errs :=
    (if uname = "" then [("username", "Username is required")] else []) ++
    (if password = "" then [("password", "Password cannot be blank")] else [])
  if errs ≠ [] then .render "login" 400 errs
  else
    let userOpt := users.find? (fun u => u.username == uname)
    let valid := match userOpt with
      | some u => comparePassword u password
      | none => false
    if userOpt.isNone || !valid then
      .render "login" 400 [("password", "Invalid username or password")]
    else .redirect "/todos"

/-- The `GET /todos` handler's task query (`web.ts`):
`Todo.find(userId).sort(createdAt: -1)`, owner-filtered. -/
def webTodos (db : List Todo) (uid : Nat) : List Todo := userTodos db uid

/-- The `POST /todos/add` handler (`web.ts`): the validator trims
`req.body.text` in place and rejects when the result is empty, re-rendering
the list with a field error; otherwise the trimmed text is saved. -/
def webAddTodo (db : List Todo) (uid : Nat) (text : String)
    (freshId now : Nat) : List Todo × WebResp :=
  let t := strTrim text
  if t = "" then
    (db, .render "todos" 400 [("text", "Todo text cannot be empty")])
  else (db ++ [⟨freshId, t, false, now, uid⟩], .redirect "/todos")

/-- The `POST /todos/:id/toggle` handler (`web.ts`): owner-filtered
`findOne`; when found, flips `completed` and saves; in every case responds
with the same redirect to `/todos` (a miss is silent). -/
def webToggle (db : List Todo) (uid i : Nat) : List Todo × WebResp :=
  match findOwned db uid i with
  | none => (db, .redirect "/todos")
  | some t =>
    (db.map (fun u => if u.id == t.id then { t with completed := !t.completed } else u),
      .redirect "/todos")

/-- The `POST /todos/:id/delete` handler (`web.ts`): owner-filtered
`deleteOne`, result ignored, always the same redirect. -/
def webDelete (db : List Todo) (uid i : Nat) : List Todo × WebResp :=
  (db.eraseP (fun t => t.id == i && t.userId == uid), .redirect "/todos")

/-- The per-request state the middleware chain acts on: the `token` cookie
as the verifier will see it, and the `userId` attached so far. -/
structure ReqState where
  tokenCookie : Option Token
  userId : Option Nat
deriving DecidableEq

/-- Outcome of a middleware: pass control to the next handler with the
(possibly updated) request, or short-circuit with a response. -/
inductive MwOutcome (α : Type) where
  | next (req : α)
  | halt (resp : WebResp)
deriving DecidableEq

/-- The `jwtAuth` middleware (`src/middleware/auth.ts`): reads the `token`
cookie; if present and verifiable and the payload carries a `userId`,
attaches it; on any verification failure the error is logged and swallowed
(the `catch` block); `next()` is reached on every path. -/
def jwtAuth (secret : String) (now : Nat) (req : ReqState) :
    MwOutcome ReqState :=
  match req.tokenCookie with
  | none => .next req
  | some tok =>
    match jwtVerify secret now tok with
    | .error _ => .next req
    | .ok p =>
      match p.userId with
      | none => .next req
      | some uid => .next { req with userId := some uid }

/-- The `ensureAuth` guard (`auth.ts`): redirect to `/login` when no
`userId` was attached, else pass through. -/
def ensureAuth (req : ReqState) : MwOutcome ReqState :=
  match req.userId with
  | none => .halt (.redirect "/login")
  | some _ => .next req

/-- The exemption test of the CSRF dispatch middleware (`src/index.ts`):
GraphQL prefix, static-asset prefix, or the favicon path. -/
def csrfExempt (urlPath : String) : Bool :=
  strStarts urlPath "/graphql" || strStarts urlPath "/public" ||
    urlPath == "/favicon.ico"

/-- Modelled from the library semantics of `csurf`: token validation is
enforced for state-changing methods (everything outside GET, HEAD,
OPTIONS). -/
def stateChanging (method : String) : Bool :=
  !(method == "GET" || method == "HEAD" || method == "OPTIONS")

/-- A request as the CSRF dispatch sees it: original URL path, HTTP method,
and whether the submitted anti-forgery token matches the session secret. -/
structure CsrfReq where
  urlPath : String
  method : String
  tokenValid : Bool
deriving DecidableEq

/-- Outcome of the CSRF dispatch: control passes (with `tokenIssued` true
exactly when `csrfProtection` ran and exposed `res.locals.csrfToken`), or
the CSRF error handler renders the 403 error page (`EBADCSRFTOKEN`). -/
inductive CsrfOutcome where
  | next (tokenIssued : Bool)
  | errorPage (status : Nat) (message : String)
deriving DecidableEq

/-- The CSRF dispatch middleware of `src/index.ts` combined with the
`EBADCSRFTOKEN` error handler: exempt paths skip the check entirely;
otherwise an invalid token on a state-changing request flows through
`next(err)` to the 403 error page, and a valid submission passes on with a
fresh token exposed to the views. -/
def csrfDispatch (req : CsrfReq) : CsrfOutcome :=
  if csrfExempt req.urlPath then .next false
  else if stateChanging req.method && !req.tokenValid then
    .errorPage 403
      "Form tampering detected (invalid CSRF token). Please refresh and try again."
  else .next true

/-! Helper lemmas shared by the claim theorems. -/

lemma mem_userTodos_iff (db : List Todo) (uid : Nat) (t : Todo) :
    t ∈ userTodos db uid ↔ t ∈ db ∧ t.userId = uid := by
  unfold userTodos
  rw [(List.perm_insertionSort newerEq _).mem_iff, List.mem_filter]
  simp

lemma findOwned_eq_none (db : List Todo) (uid i : Nat)
    (h : ∀ t ∈ db, ¬(t.id = i ∧ t.userId = uid)) :
    findOwned db uid i = none := by
  rw [findOwned, List.find?_eq_none]
  intro x hx
  simp only [Bool.and_eq_true, beq_iff_eq]
  exact h x hx

lemma anyOwned_eq_false (db : List Todo) (uid i : Nat)
    (h : ∀ t ∈ db, ¬(t.id = i ∧ t.userId = uid)) :
    db.any (fun t => t.id == i && t.userId == uid) = false := by
  rw [List.any_eq_false]
  intro x hx
  simp only [Bool.and_eq_true, beq_iff_eq]
  exact h x hx

lemma id_unique {db : List Todo} (hnd : (db.map Todo.id).Nodup)
    {u t : Todo} (hu : u ∈ db) (ht : t ∈ db) (h : u.id = t.id) : u = t :=
  List.inj_on_of_nodup_map hnd hu ht h

/-- C1: the claim says user B's toggle and delete against user A's task id
"fail as not-found". On the web surface they do not: a non-owner's toggle
or delete responds with the very same `302 /todos` redirect as the owner's
successful toggle — no not-found failure is surfaced (the task is still
never modified). -/
theorem C1_counterexample :
    (webToggle [⟨1, "milk", false, 10, 1⟩] 2 1).1 = [⟨1, "milk", false, 10, 1⟩] ∧
    (webToggle [⟨1, "milk", false, 10, 1⟩] 2 1).2 = .redirect "/todos" ∧
    (webToggle [⟨1, "milk", false, 10, 1⟩] 1 1).2 = .redirect "/todos" ∧
    (webDelete [⟨1, "milk", false, 10, 1⟩] 2 1).1 = [⟨1, "milk", false, 10, 1⟩] ∧
    (webDelete [⟨1, "milk", false, 10, 1⟩] 2 1).2 = .redirect "/todos" := by
  decide

/-- C1 (amended): when no task in the store has the given id with owner B —
whether the id belongs to another user's task or to no task at all — the
GraphQL toggle and delete fail as `Todo not found`, the web toggle and
delete leave the store unchanged and silently redirect (no not-found
surfaced), and every task returned by a list lookup belongs to the
requesting user. -/
theorem C1_owner_scoping (db : List Todo) (uidB i : Nat)
    (h : ∀ t ∈ db, ¬(t.id = i ∧ t.userId = uidB)) :
    toggleTodoResolver db ⟨some uidB⟩ i = .error "Todo not found" ∧
    deleteTodoResolver db ⟨some uidB⟩ i = .error "Todo not found" ∧
    webToggle db uidB i = (db, .redirect "/todos") ∧
    webDelete db uidB i = (db, .redirect "/todos") ∧
    (∀ uid : Nat, ∀ t ∈ userTodos db uid, t.userId = uid) := by
  have hf := findOwned_eq_none db uidB i h
  have ha := anyOwned_eq_false db uidB i h
  refine ⟨?_, ?_, ?_, ?_, ?_⟩
  · simp [toggleTodoResolver, hf]
  · simp [deleteTodoResolver, ha]
  · simp [webToggle, hf]
  · rw [webDelete, List.eraseP_of_forall_not]
    intro a hax
    simp only [Bool.and_eq_true, beq_iff_eq]
    exact h a hax
  · intro uid t ht
    exact ((mem_userTodos_iff db uid t).1 ht).2

theorem C1_witness :
    toggleTodoResolver [⟨1, "milk", false, 10, 1⟩] ⟨some 2⟩ 1 =
      .error "Todo not found" ∧
    deleteTodoResolver [⟨1, "milk", false, 10, 1⟩] ⟨some 2⟩ 1 =
      .error "Todo not found" ∧
    webToggle [⟨1, "milk", false, 10, 1⟩] 2 1 =
      ([⟨1, "milk", false, 10, 1⟩], .redirect "/todos") ∧
    webDelete [⟨1, "milk", false, 10, 1⟩] 2 1 =
      ([⟨1, "milk", false, 10, 1⟩], .redirect "/todos") ∧
    (∀ uid : Nat, ∀ t ∈ userTodos [⟨1, "milk", false, 10, 1⟩] uid,
      t.userId = uid) :=
  C1_owner_scoping [⟨1, "milk", false, 10, 1⟩] 2 1 (by decide)

/-- C3: the claim says every GraphQL operation, `register` and `login`
included, fails with `Authentication required` when the context carries no
user id. `register` does not: with an unauthenticated context it succeeds
and persists a new user. -/
theorem C3_counterexample :
    registerResolver ⟨none⟩ [] 0 "bob" "pw" =
      .ok ([⟨0, "bob", hashPw "pw"⟩], ("0", "bob")) := by
  decide

/-- C3 (amended): the four todo operations (`todos`, `addTodo`,
`toggleTodo`, `deleteTodo`) fail with `Authentication required` whenever
the context has no user id, performing no store action; `register` and
`login` perform no authentication check at all — their result is
independent of the context. -/
theorem C3_auth_required (db : List Todo) (sk tk : Option Nat)
    (text : String) (i freshId now : Nat) :
    todosResolver db ⟨none⟩ sk tk = .error "Authentication required" ∧
    addTodoResolver db ⟨none⟩ text freshId now =
      .error "Authentication required" ∧
    toggleTodoResolver db ⟨none⟩ i = .error "Authentication required" ∧
    deleteTodoResolver db ⟨none⟩ i = .error "Authentication required" ∧
    (∀ c c2 : AuthContext, ∀ users fid username password,
      registerResolver c users fid username password =
        registerResolver c2 users fid username password) ∧
    (∀ c c2 : AuthContext, ∀ users secret n2 username password,
      loginResolver c users secret n2 username password =
        loginResolver c2 users secret n2 username password) :=
  ⟨rfl, rfl, rfl, rfl, fun _ _ _ _ _ _ => rfl, fun _ _ _ _ _ _ _ => rfl⟩

/-- C4: the claim says task creation is rejected whenever the text is empty
after trimming, on the API path too. The `addTodo` mutation does not trim
and the schema's `required` check only rejects the literally empty string:
a whitespace-only text is accepted and persisted verbatim. -/
theorem C4_counterexample :
    strTrim " " = "" ∧
    addTodoResolver [] ⟨some 1⟩ " " 0 5 =
      .ok ([⟨0, " ", false, 5, 1⟩], ⟨"0", " ", false, "5"⟩) := by
  decide

/-- C4 (amended): the web form accepts exactly the texts that are non-empty
after trimming and persists the trimmed text; the API mutation rejects only
the literally empty text and persists any other text untrimmed,
whitespace-only texts included. -/
theorem C4_create_validation (db : List Todo) (uid : Nat) (text : String)
    (freshId now : Nat) :
    (strTrim text ≠ "" →
      webAddTodo db uid text freshId now =
        (db ++ [⟨freshId, strTrim text, false, now, uid⟩],
          .redirect "/todos")) ∧
    (strTrim text = "" →
      webAddTodo db uid text freshId now =
        (db, .render "todos" 400 [("text", "Todo text cannot be empty")])) ∧
    (text ≠ "" →
      addTodoResolver db ⟨some uid⟩ text freshId now =
        .ok (db ++ [⟨freshId, text, false, now, uid⟩],
          ⟨toString freshId, text, false, toString now⟩)) ∧
    (text = "" →
      addTodoResolver db ⟨some uid⟩ text freshId now =
        .error "Todo validation failed: text is required") := by
  refine ⟨fun h => ?_, fun h => ?_, fun h => ?_, fun h => ?_⟩ <;>
    simp [webAddTodo, addTodoResolver, toPayload, h]

theorem C4_witness :
    webAddTodo [] 1 " milk " 0 5 =
      ([⟨0, strTrim " milk ", false, 5, 1⟩], .redirect "/todos") ∧
    webAddTodo [] 1 "  " 0 5 =
      ([], .render "todos" 400 [("text", "Todo text cannot be empty")]) ∧
    addTodoResolver [] ⟨some 1⟩ "" 0 5 =
      .error "Todo validation failed: text is required" :=
  ⟨(C4_create_validation [] 1 " milk " 0 5).1 (by decide),
   (C4_create_validation [] 1 "  " 0 5).2.1 (by decide),
   (C4_create_validation [] 1 "" 0 5).2.2.2 rfl⟩

/-- C9: the CSRF dispatch never subjects a request whose path has the
GraphQL prefix to the check; a non-exempt state-changing request with an
invalid or missing anti-forgery token is rejected with the distinguishable
403 error page; and control passes with a fresh token issued exactly when
the path is not exempt (API entry point, static assets, favicon). -/
theorem C9_csrf_scope (req : CsrfReq) :
    (strStarts req.urlPath "/graphql" = true → csrfDispatch req = .next false) ∧
    (csrfExempt req.urlPath = false → stateChanging req.method = true →
      req.tokenValid = false →
      csrfDispatch req = .errorPage 403
        "Form tampering detected (invalid CSRF token). Please refresh and try again.") ∧
    (∀ b, csrfDispatch req = .next b → (b = true ↔ csrfExempt req.urlPath = false)) := by
  refine ⟨fun h => ?_, fun h1 h2 h3 => ?_, fun b hb => ?_⟩
  · simp [csrfDispatch, csrfExempt, h]
  · simp [csrfDispatch, h1, h2, h3]
  · by_cases he : csrfExempt req.urlPath = true
    · rw [csrfDispatch, if_pos he] at hb
      cases hb
      simp [he]
    · rw [csrfDispatch, if_neg he] at hb
      by_cases hs : (stateChanging req.method && !req.tokenValid) = true
      · rw [if_pos hs] at hb
        cases hb
      · rw [if_neg hs] at hb
        cases hb
        simp at he
        simp [he]

theorem C9_witness :
    csrfDispatch ⟨"/graphql", "POST", false⟩ = .next false ∧
    csrfDispatch ⟨"/todos/add", "POST", false⟩ = .errorPage 403
      "Form tampering detected (invalid CSRF token). Please refresh and try again." :=
  ⟨(C9_csrf_scope ⟨"/graphql", "POST", false⟩).1 (by decide),
   (C9_csrf_scope ⟨"/todos/add", "POST", false⟩).2.1 (by decide) (by decide) rfl⟩

/-- C10: the claim says `register` succeeds for every not-yet-registered
username whatsoever. It does not for the empty username: the user model's
schema requirement (spec section 3: username non-empty) rejects the save,
so the mutation fails with a validation error rather than succeeding. -/
theorem C10_counterexample :
    registerResolver ⟨none⟩ [] 0 "" "pw" =
      .error "User validation failed: username is required" := by
  decide

/-- C10 (amended): for every non-empty username not already registered and
every password string whatsoever — no length or character-class policy —
the API `register` succeeds and persists the user; its failure conditions
are only a duplicate username and the store-level non-empty-username
requirement. The web form's field rules reject such inputs on the web
path. -/
theorem C10_register_no_policy (users : List User) (freshId : Nat)
    (username password : String) (h1 : username ≠ "")
    (h2 : users.any (fun u => u.username == username) = false) :
    registerResolver ⟨none⟩ users freshId username password =
      .ok (users ++ [⟨freshId, username, hashPw password⟩],
        (toString freshId, username)) ∧
    (webRegister users freshId "ab" "Short1" "Short1").2 =
      .render "register" 400
        [("username", "Username must be at least 3 characters"),
         ("password",
          "Password must be at least 8 chars, include uppercase, lowercase, number & symbol")] := by
  constructor
  · simp [registerResolver, userSave, h1, h2]
  · rfl

theorem C10_witness :
    registerResolver ⟨none⟩ [] 0 "ab" "x" =
      .ok ([⟨0, "ab", hashPw "x"⟩], ("0", "ab")) ∧
    (webRegister [] 0 "ab" "Short1" "Short1").2 =
      .render "register" 400
        [("username", "Username must be at least 3 characters"),
         ("password",
          "Password must be at least 8 chars, include uppercase, lowercase, number & symbol")] :=
  C10_register_no_policy [] 0 "ab" "x" (by decide) (by decide)

/-- C2: the claim says both login surfaces hide which half of the check
failed. The GraphQL `login` mutation does not: an unknown username yields
`User not found` while a wrong password for an existing user yields
`Invalid password` — two distinct caller-visible messages. -/
theorem C2_counterexample :
    loginResolver ⟨none⟩ [⟨0, "alice", hashPw "Aa1!aaaa"⟩] "s" 0
      "bob" "Aa1!aaaa" = .error "User not found" ∧
    loginResolver ⟨none⟩ [⟨0, "alice", hashPw "Aa1!aaaa"⟩] "s" 0
      "alice" "wrong" = .error "Invalid password" ∧
    ("User not found" : String) ≠ "Invalid password" := by
  decide

/-- C2 (amended): the web login form renders one constant message,
`Invalid username or password`, for both failure halves (unknown username
and wrong password); the API `login` mutation distinguishes them, erroring
`User not found` when the username matches no user and `Invalid password`
when the hash comparison fails. -/
theorem C2_login_messages (users : List User) (secret : String) (now : Nat)
    (uname pw : String) (ht : strTrim uname = uname) (hu : uname ≠ "")
    (hp : pw ≠ "")
    (hfail : ∀ u ∈ users, u.username = uname → comparePassword u pw = false) :
    webLogin users uname pw =
      .render "login" 400 [("password", "Invalid username or password")] ∧
    (users.find? (fun u => u.username == uname) = none →
      loginResolver ⟨none⟩ users secret now uname pw =
        .error "User not found") ∧
    (∀ u, users.find? (fun u2 => u2.username == uname) = some u →
      loginResolver ⟨none⟩ users secret now uname pw =
        .error "Invalid password") := by
  refine ⟨?_, fun h => ?_, fun u h => ?_⟩
  · unfold webLogin
    rw [ht]
    simp only [hu, hp, if_neg, ite_false, List.append_nil, ne_eq,
      not_false_eq_true, ite_eq_right_iff, reduceIte]
    cases hfind : users.find? (fun u => u.username == uname) with
    | none => simp [hfind]
    | some u =>
      have hmem := List.mem_of_find?_eq_some hfind
      have hpu : u.username = uname := by simpa using List.find?_some hfind
      have hc := hfail u hmem hpu
      simp [hfind, hc]
  · simp [loginResolver, h]
  · have hmem := List.mem_of_find?_eq_some h
    have hpu : u.username = uname := by simpa using List.find?_some h
    have hc := hfail u hmem hpu
    simp [loginResolver, h, hc]

theorem C2_witness :
    webLogin [⟨0, "alice", hashPw "Aa1!aaaa"⟩] "bob" "x" =
      .render "login" 400 [("password", "Invalid username or password")] ∧
    loginResolver ⟨none⟩ [⟨0, "alice", hashPw "Aa1!aaaa"⟩] "s" 0 "bob" "x" =
      .error "User not found" := by
  have h := C2_login_messages [⟨0, "alice", hashPw "Aa1!aaaa"⟩] "s" 0
    "bob" "x" (by decide) (by decide) (by decide) (by decide)
  exact ⟨h.1, h.2.1 (by decide)⟩

/-- C8: the authentication middleware passes control to the next handler on
every input — absent, malformed, expired or mis-signed cookie included —
leaving a fresh request unauthenticated in all those cases; a user id is
attached exactly when the cookie verifies under the secret and its payload
carries one. -/
theorem C8_jwt_auth_never_halts (secret : String) (now : Nat)
    (req : ReqState) (h : req.userId = none) :
    ∃ r : ReqState, jwtAuth secret now req = .next r ∧
      r.tokenCookie = req.tokenCookie ∧
      (∀ uid : Nat, r.userId = some uid ↔
        ∃ tok p, req.tokenCookie = some tok ∧
          jwtVerify secret now tok = .ok p ∧ p.userId = some uid) := by
  obtain ⟨cookie, u⟩ := req
  replace h : u = none := h
  subst h
  cases cookie with
  | none => exact ⟨⟨none, none⟩, rfl, rfl, by simp⟩
  | some tok =>
    cases hv : jwtVerify secret now tok with
    | error e =>
      refine ⟨⟨some tok, none⟩, ?_, rfl, ?_⟩
      · simp [jwtAuth, hv]
      · intro uid
        simp [hv]
    | ok p =>
      cases hp : p.userId with
      | none =>
        refine ⟨⟨some tok, none⟩, ?_, rfl, ?_⟩
        · simp [jwtAuth, hv, hp]
        · intro uid
          simp [hv, hp]
      | some uid0 =>
        refine ⟨⟨some tok, some uid0⟩, ?_, rfl, ?_⟩
        · simp [jwtAuth, hv, hp]
        · intro uid
          simp [hv, hp, eq_comm]

theorem C8_witness :
    ∃ r : ReqState,
      jwtAuth "s" 0 ⟨some (.signed ⟨some 7, 100⟩ "s"), none⟩ = .next r ∧
      r.tokenCookie = (⟨some (.signed ⟨some 7, 100⟩ "s"), none⟩ : ReqState).tokenCookie ∧
      (∀ uid : Nat, r.userId = some uid ↔
        ∃ tok p,
          (⟨some (.signed ⟨some 7, 100⟩ "s"), none⟩ : ReqState).tokenCookie = some tok ∧
          jwtVerify "s" 0 tok = .ok p ∧ p.userId = some uid) :=
  C8_jwt_auth_never_halts "s" 0 ⟨some (.signed ⟨some 7, 100⟩ "s"), none⟩ rfl

/-- C5: with the task store unchanged between calls and distinct document
ids, the two consecutive pages `todos(skip 0, take N)` and
`todos(skip N, take N)` are the payload images of two windows of the user's
newest-first task list that are each sorted newest-first, share no task id,
and concatenate exactly to the first `2N` tasks of that list — disjoint and
contiguous, with no duplicate and no gap. -/
theorem C5_pagination (db : List Todo) (uid N : Nat) (_hN : 0 < N)
    (hnd : (db.map Todo.id).Nodup) :
    ∃ w1 w2 : List Todo,
      todosResolver db ⟨some uid⟩ (some 0) (some N) = .ok (w1.map toPayload) ∧
      todosResolver db ⟨some uid⟩ (some N) (some N) = .ok (w2.map toPayload) ∧
      w1.Pairwise newerEq ∧ w2.Pairwise newerEq ∧
      (∀ a ∈ w1, ∀ b ∈ w2, a.id ≠ b.id) ∧
      w1 ++ w2 = (userTodos db uid).take (N + N) := by
  refine ⟨(userTodos db uid).take N, ((userTodos db uid).drop N).take N,
    rfl, rfl, ?_, ?_, ?_, (List.take_add _ N N).symm⟩
  · exact List.Pairwise.sublist (List.take_sublist _ _)
      (List.sorted_insertionSort newerEq _)
  · exact List.Pairwise.sublist
      ((List.take_sublist _ _).trans (List.drop_sublist _ _))
      (List.sorted_insertionSort newerEq _)
  · have h1 : ((db.filter (fun t => t.userId == uid)).map Todo.id).Nodup :=
      ((List.filter_sublist db).map Todo.id).nodup hnd
    have hperm : List.Perm (userTodos db uid)
        (db.filter (fun t => t.userId == uid)) :=
      List.perm_insertionSort newerEq _
    have h2 : ((userTodos db uid).map Todo.id).Nodup :=
      ((hperm.map Todo.id).nodup_iff).2 h1
    have h3 : (((userTodos db uid).take (N + N)).map Todo.id).Nodup :=
      ((List.take_sublist (N + N) _).map Todo.id).nodup h2
    rw [List.take_add, List.map_append] at h3
    have hdisj := List.disjoint_of_nodup_append h3
    intro a ha b hb hab
    exact hdisj (List.mem_map_of_mem Todo.id ha)
      (hab ▸ List.mem_map_of_mem Todo.id hb)

theorem C5_witness :
    ∃ w1 w2 : List Todo,
      todosResolver [⟨1, "a", false, 10, 1⟩, ⟨2, "b", true, 20, 1⟩,
        ⟨3, "c", false, 30, 1⟩] ⟨some 1⟩ (some 0) (some 2) =
        .ok (w1.map toPayload) ∧
      todosResolver [⟨1, "a", false, 10, 1⟩, ⟨2, "b", true, 20, 1⟩,
        ⟨3, "c", false, 30, 1⟩] ⟨some 1⟩ (some 2) (some 2) =
        .ok (w2.map toPayload) ∧
      w1.Pairwise newerEq ∧ w2.Pairwise newerEq ∧
      (∀ a ∈ w1, ∀ b ∈ w2, a.id ≠ b.id) ∧
      w1 ++ w2 = (userTodos [⟨1, "a", false, 10, 1⟩, ⟨2, "b", true, 20, 1⟩,
        ⟨3, "c", false, 30, 1⟩] 1).take (2 + 2) :=
  C5_pagination [⟨1, "a", false, 10, 1⟩, ⟨2, "b", true, 20, 1⟩,
    ⟨3, "c", false, 30, 1⟩] 1 2 (by decide) (by decide)

lemma find?_owned_replace (uid i : Nat) (t t2 : Todo)
    (hid : t2.id = t.id) (huid : t2.userId = t.userId) :
    ∀ db : List Todo,
      db.find? (fun u => u.id == i && u.userId == uid) = some t →
      (db.map Todo.id).Nodup →
      (db.map (fun u => if u.id == t.id then t2 else u)).find?
        (fun u => u.id == i && u.userId == uid) = some t2 := by
  intro db
  induction db with
  | nil => intro h _; simp at h
  | cons x xs ih =>
    intro h hnd
    simp only [List.map_cons, List.nodup_cons] at hnd
    cases hpx : (x.id == i && x.userId == uid) with
    | true =>
      simp only [List.find?, hpx] at h
      have hx : x = t := Option.some.inj h
      have hpt2 : (t2.id == i && t2.userId == uid) = true := by
        rw [hx] at hpx
        simp only [Bool.and_eq_true, beq_iff_eq] at hpx ⊢
        exact ⟨hid.trans hpx.1, huid.trans hpx.2⟩
      have hhead : (if (x.id == t.id) = true then t2 else x) = t2 := by
        rw [hx]
        simp
      rw [List.map_cons, hhead]
      simp [List.find?, hpt2]
    | false =>
      simp only [List.find?, hpx] at h
      have hmem : t ∈ xs := List.mem_of_find?_eq_some h
      have hxid : (x.id == t.id) = false := by
        rw [beq_eq_false_iff_ne]
        intro he
        exact hnd.1 (he ▸ List.mem_map_of_mem Todo.id hmem)
      have hhead : (if (x.id == t.id) = true then t2 else x) = x := by
        rw [hxid]
        simp
      rw [List.map_cons, hhead]
      simp only [List.find?, hpx]
      exact ih h hnd.2

/-- C6: toggling the same task twice in succession through the owner's
GraphQL mutation returns the whole store to its original state — the
completed flag in particular — and the second payload's flag is the
negation of the first's. -/
theorem C6_double_toggle (db db1 db2 : List Todo) (uid i : Nat)
    (p1 p2 : TodoPayload) (hnd : (db.map Todo.id).Nodup)
    (h1 : toggleTodoResolver db ⟨some uid⟩ i = .ok (db1, p1))
    (h2 : toggleTodoResolver db1 ⟨some uid⟩ i = .ok (db2, p2)) :
    db2 = db ∧ p2.completed = !p1.completed := by
  simp only [toggleTodoResolver, findOwned] at h1 h2
  cases hf1 : db.find? (fun u => u.id == i && u.userId == uid) with
  | none => rw [hf1] at h1; simp at h1
  | some t =>
    rw [hf1] at h1
    simp only [Except.ok.injEq, Prod.mk.injEq] at h1
    obtain ⟨hdb1, hp1⟩ := h1
    have hmem : t ∈ db := List.mem_of_find?_eq_some hf1
    obtain ⟨tid, ttext, tcomp, tcret, tuid⟩ := t
    have hf2 : db1.find? (fun u => u.id == i && u.userId == uid) =
        some ⟨tid, ttext, !tcomp, tcret, tuid⟩ := by
      rw [← hdb1]
      exact find?_owned_replace uid i ⟨tid, ttext, tcomp, tcret, tuid⟩
        ⟨tid, ttext, !tcomp, tcret, tuid⟩ rfl rfl db hf1 hnd
    rw [hf2] at h2
    simp only [Except.ok.injEq, Prod.mk.injEq] at h2
    obtain ⟨hdb2, hp2⟩ := h2
    constructor
    · rw [← hdb2, ← hdb1, List.map_map]
      refine Eq.trans (List.map_congr_left ?_) (List.map_id' db)
      intro u hu
      simp only [Function.comp_apply]
      by_cases hc : u.id = tid
      · have hut : u = ⟨tid, ttext, tcomp, tcret, tuid⟩ :=
          id_unique hnd hu hmem hc
        subst hut
        simp [Bool.not_not]
      · simp [hc]
    · rw [← hp2, ← hp1]
      simp [toPayload]

theorem C6_witness :
    [(⟨1, "a", false, 10, 1⟩ : Todo)] = [⟨1, "a", false, 10, 1⟩] ∧
    (⟨"1", "a", false, "10"⟩ : TodoPayload).completed =
      !(⟨"1", "a", true, "10"⟩ : TodoPayload).completed :=
  C6_double_toggle [⟨1, "a", false, 10, 1⟩] [⟨1, "a", true, 10, 1⟩]
    [⟨1, "a", false, 10, 1⟩] 1 1 ⟨"1", "a", true, "10"⟩
    ⟨"1", "a", false, "10"⟩ (by decide) (by decide) (by decide)

/-- C7: a successful owner toggle changes only the completed flag of the
targeted task: the store after the call is the pointwise image of the store
before it where the task with the given id has only its flag flipped and
every other task — any other user's tasks included — is untouched; the
returned payload keeps the task's id, text and creation time. -/
theorem C7_toggle_frame (db db2 : List Todo) (uid i : Nat) (p : TodoPayload)
    (hnd : (db.map Todo.id).Nodup)
    (h : toggleTodoResolver db ⟨some uid⟩ i = .ok (db2, p)) :
    ∃ t ∈ db, t.id = i ∧ t.userId = uid ∧
      p = toPayload { t with completed := !t.completed } ∧
      db2 = db.map (fun u =>
        if u.id = i then { u with completed := !u.completed } else u) ∧
      (∀ u ∈ db, u.id ≠ i → u ∈ db2) ∧
      db2.length = db.length := by
  simp only [toggleTodoResolver, findOwned] at h
  cases hf : db.find? (fun u => u.id == i && u.userId == uid) with
  | none => rw [hf] at h; simp at h
  | some t =>
    rw [hf] at h
    simp only [Except.ok.injEq, Prod.mk.injEq] at h
    obtain ⟨hdb2, hp⟩ := h
    have hmem : t ∈ db := List.mem_of_find?_eq_some hf
    have hpt : t.id = i ∧ t.userId = uid := by
      simpa using List.find?_some hf
    have hframe : db.map (fun u =>
        if u.id == t.id then { t with completed := !t.completed } else u) =
        db.map (fun u =>
          if u.id = i then { u with completed := !u.completed } else u) := by
      apply List.map_congr_left
      intro u hu
      by_cases hc : u.id = i
      · have hut : u = t := id_unique hnd hu hmem (by rw [hc, hpt.1])
        subst hut
        simp [hc]
      · have hct : (u.id == t.id) = false := by
          rw [beq_eq_false_iff_ne, hpt.1]
          exact hc
        simp [hc, hct]
    refine ⟨t, hmem, hpt.1, hpt.2, hp.symm, ?_, ?_, ?_⟩
    · rw [← hdb2]
      exact hframe
    · intro u hu hne
      rw [← hdb2, hframe]
      refine List.mem_map.2 ⟨u, hu, ?_⟩
      simp [hne]
    · rw [← hdb2, List.length_map]

theorem C7_witness :
    ∃ t ∈ [(⟨1, "a", false, 10, 1⟩ : Todo), ⟨2, "b", false, 20, 2⟩],
      t.id = 1 ∧ t.userId = 1 ∧
      (⟨"1", "a", true, "10"⟩ : TodoPayload) =
        toPayload { t with completed := !t.completed } ∧
      [(⟨1, "a", true, 10, 1⟩ : Todo), ⟨2, "b", false, 20, 2⟩] =
        [(⟨1, "a", false, 10, 1⟩ : Todo), ⟨2, "b", false, 20, 2⟩].map (fun u =>
          if u.id = 1 then { u with completed := !u.completed } else u) ∧
      (∀ u ∈ [(⟨1, "a", false, 10, 1⟩ : Todo), ⟨2, "b", false, 20, 2⟩],
        u.id ≠ 1 → u ∈ [(⟨1, "a", true, 10, 1⟩ : Todo), ⟨2, "b", false, 20, 2⟩]) ∧
      [(⟨1, "a", true, 10, 1⟩ : Todo), ⟨2, "b", false, 20, 2⟩].length =
        [(⟨1, "a", false, 10, 1⟩ : Todo), ⟨2, "b", false, 20, 2⟩].length :=
  C7_toggle_frame [⟨1, "a", false, 10, 1⟩, ⟨2, "b", false, 20, 2⟩]
    [⟨1, "a", true, 10, 1⟩, ⟨2, "b", false, 20, 2⟩] 1 1
    ⟨"1", "a", true, "10"⟩ (by decide) (by decide)

end TodoApp
